import Mathlib

/-!
Verification of the covid_gender preprocessing pipeline
(`scripts/preprocess_data.py`) against its specification.

The script is embedded shallowly:

* Python `dict`s become association lists (`List (String × α)`) with
  insertion-order semantics: updating an existing key keeps its position,
  inserting a new key appends at the end, exactly as in CPython.
* CSV rows become lists/tuples of the parsed cell values; file I/O is
  dropped, each pipeline function takes the rows it would have read and
  returns the rows it would have written.
* Python exceptions become `Except String` (the message is the text the
  exception would carry); an uncaught exception aborts the function.
* `float('nan')` / `np.nan` sentinels become `none : Option ℚ`; finite
  numeric values are rationals.
-/

namespace PreprocessData

/-- Lookup in a Python dict modelled as an association list: the value of
the first (and, for dicts, only) binding of `k`. -/
def dictGet? {α : Type} : List (String × α) → String → Option α
  | [], _ => none
  | p :: rest, k => if p.1 = k then some p.2 else dictGet? rest k

/-- Keys of a dict, in insertion order. -/
def dictKeys {α : Type} (d : List (String × α)) : List String :=
  d.map Prod.fst

/-- Python `d[k] = v`: overwrite in place if `k` is present, else append a
new binding at the end (CPython preserves insertion order). -/
def dictInsert {α : Type} (d : List (String × α)) (k : String) (v : α) :
    List (String × α) :=
  if k ∈ dictKeys d then
    d.map (fun p => if p.1 = k then (k, v) else p)
  else
    d ++ [(k, v)]

/-- Build a dict from a list of key/value pairs, later bindings of the same
key overwriting earlier ones — the semantics of a Python dict comprehension
`\x7bk : v for (k, v) in l\x7d`. -/
def buildDict {α : Type} (l : List (String × α)) : List (String × α) :=
  l.foldl (fun d p => dictInsert d p.1 p.2) []

/-- Character-list form of Python `str.zfill` for a string shorter than
`width`: left-fill with ASCII zeros; a leading sign character stays in
front of the inserted zeros. -/
def zfillChars (width : Nat) : List Char → List Char
  | [] => List.replicate width '0'
  | c :: rest =>
    if c = '+' ∨ c = '-' then
      c :: (List.replicate (width - (rest.length + 1)) '0' ++ rest)
    else
      List.replicate (width - (rest.length + 1)) '0' ++ (c :: rest)

/-- Python `str.zfill(width)`: a string at least `width` long is returned
unchanged, otherwise it is left-filled with ASCII zeros (sign-aware). -/
def zfill (width : Nat) (s : String) : String :=
  if width ≤ s.length then s else String.mk (zfillChars width s.data)

/-- Python string slice `s[:n]`: the first `n` characters (all of `s` when
it is shorter). -/
def strTake (n : Nat) (s : String) : String :=
  String.mk (s.data.take n)

/-- Python string slice `s[n:]`. -/
def strDrop (n : Nat) (s : String) : String :=
  String.mk (s.data.drop n)

/-- Digit test for a whole string (used to phrase "valid numeric
geographic identifier" in the spec's properties). -/
def allDigits (s : String) : Bool :=
  s.data.all Char.isDigit

/-- Accumulate a base-10 digit list into a natural number. -/
def digitsToNat : List Char → Nat → Nat
  | [], acc => acc
  | c :: rest, acc => digitsToNat rest (acc * 10 + (c.toNat - '0'.toNat))

/-- Whitespace characters stripped by Python's int() conversion (the
common ASCII ones suffice for the CSV cells modelled here). -/
def isSpaceChar (c : Char) : Bool :=
  c = ' ' ∨ c = '\t' ∨ c = '\n' ∨ c = '\r'

/-- Strip leading and trailing whitespace from a character list. -/
def trimChars (l : List Char) : List Char :=
  ((l.dropWhile isSpaceChar).reverse.dropWhile isSpaceChar).reverse

/-- Python `int(s)` on a decimal string: surrounding whitespace is
stripped, an optional sign is followed by at least one digit; anything
else raises ValueError (modelled as `none`). -/
def pyInt? (s : String) : Option Int :=
  match trimChars s.data with
  | [] => none
  | '+' :: rest =>
    if rest ≠ [] ∧ rest.all Char.isDigit then some (digitsToNat rest 0) else none
  | '-' :: rest =>
    if rest ≠ [] ∧ rest.all Char.isDigit then some (-(digitsToNat rest 0 : Int)) else none
  | l =>
    if l.all Char.isDigit then some (digitsToNat l 0) else none

/-- Python `row[i]` on a list: IndexError past the end. -/
def pyIndex (row : List String) (i : Nat) : Except String String :=
  match row[i]? with
  | some v => Except.ok v
  | none => Except.error "IndexError: list index out of range"

/-- Python `int(s)` as an `Except`, carrying ValueError's message. -/
def pyIntExc (s : String) : Except String Int :=
  match pyInt? s with
  | some n => Except.ok n
  | none => Except.error ("ValueError: invalid literal for int() with base 10: " ++ s)

/-- Body of the `try` block of `preprocess_census_data` (lines 45-58):
extract the state and county codes from columns 1 and 2 and the integer
male/female counts from columns 8 and 9; the first failure is the
exception the block raises. -/
def extractCensusRow (row : List String) : Except String (String × String × Int × Int) := do
  let state_fips_code ← pyIndex row 1
  let county_fips_code ← pyIndex row 2
  let number_of_males ← pyIntExc (← pyIndex row 8)
  let number_of_females ← pyIntExc (← pyIndex row 9)
  pure (state_fips_code, county_fips_code, number_of_males, number_of_females)

/-- Per-row arrays built by the read loop of `preprocess_census_data`,
plus the error messages printed by its `except` clause, in order. -/
structure CensusLists where
  states : List String
  counties : List String
  males : List Int
  females : List Int
  printed : List String
  deriving DecidableEq

/-- Read loop of `preprocess_census_data` (lines 43-61): each row is
extracted inside `try`; on success all four values are appended, on any
exception nothing is appended and the error is printed (`except Exception
as e: print(e)`), and the loop continues with the next row. -/
def parseCensusRows : List (List String) → CensusLists
  | [] => ⟨[], [], [], [], []⟩
  | row :: rest =>
    let acc := parseCensusRows rest
    match extractCensusRow row with
    | Except.ok (st, ct, m, f) =>
      ⟨st :: acc.states, ct :: acc.counties, m :: acc.males, f :: acc.females, acc.printed⟩
    | Except.error e =>
      ⟨acc.states, acc.counties, acc.males, acc.females, e :: acc.printed⟩

/-- Dict comprehension initialising every key of the list to zero
(lines 86-89). -/
def initZeroDict (keys : List String) : List (String × Int) :=
  keys.foldl (fun d k => dictInsert d k 0) []

/-- Python `d[k] += v`; in the aggregation loops the key is always present
because the dict was initialised from the very same key list, so the
KeyError branch of `d[k]` is unreachable and the lookup defaults are
inert. -/
def addToEntry (d : List (String × Int)) (k : String) (v : Int) : List (String × Int) :=
  dictInsert d k ((dictGet? d k).getD 0 + v)

/-- Aggregation by key (lines 86-96 and 161-170): zero-initialise a dict
over the key list, then add each row's value into its key's entry. -/
def aggregate (keys : List String) (vals : List Int) : List (String × Int) :=
  (List.zip keys vals).foldl (fun d kv => addToEntry d kv.1 kv.2) (initZeroDict keys)

/-- Python true division `a / b` on ints: ZeroDivisionError on a zero
denominator, else the exact quotient. -/
def pyDivInt (a b : Int) : Except String ℚ :=
  if b = 0 then Except.error "ZeroDivisionError: division by zero"
  else Except.ok ((a : ℚ) / (b : ℚ))

/-- Proportion loop of `preprocess_census_data` (lines 99-105): for each
county key, `proportion_male = num_males / (num_males + num_females)` with
no try around it, so a zero denominator aborts the whole function. -/
def censusProportions (maleD femaleD : List (String × Int)) (keys : List String) :
    Except String (List (String × ℚ)) :=
  keys.foldlM (fun d k => do
    let num_males := (dictGet? maleD k).getD 0
    let num_females := (dictGet? femaleD k).getD 0
    let proportion_male ← pyDivInt num_males (num_males + num_females)
    pure (dictInsert d k proportion_male)) []

/-- The whole of `preprocess_census_data` (lines 10-121) on its parsed CSV
rows: returns the `(county_fips, prop_male)` rows written to
`census_gender_by_county.csv` (dict items in insertion order), or the
uncaught exception that aborts the function. -/
def preprocess_census_data (rows : List (List String)) :
    Except String (List (String × ℚ)) :=
  let p := parseCensusRows rows
  let state_plus_county_fips := List.zipWith (fun a b => a ++ b) p.states p.counties
  let maleD := aggregate state_plus_county_fips p.males
  let femaleD := aggregate state_plus_county_fips p.females
  censusProportions maleD femaleD state_plus_county_fips

/-- Numpy integer-scalar true division as in line 178
(`completely_home_count / device_count` on values taken from pandas int64
columns): a zero denominator does not raise but yields a non-finite float
(nan or inf) under a runtime warning, modelled as the missing sentinel;
otherwise the quotient is exact. -/
def npDivIntScalar (a b : Int) : Option ℚ :=
  if b = 0 then none else some ((a : ℚ) / (b : ℚ))

/-- County-key extraction of `preprocess_distancing_data` (lines 152-155):
`str(full_fips_code)[:5]` for every value of the
`origin_census_block_group` column; the input rows carry that value
already rendered by `str()`. -/
def extractCountyFips (blocks : List String) : List String :=
  blocks.map (fun full_fips_code => strTake 5 full_fips_code)

/-- The whole of `preprocess_distancing_data` (lines 125-193) on its rows
`(origin_census_block_group as a string, device_count,
completely_home_device_count)`: returns the
`(county_fips, proportion_stayed_at_home)` rows written to
`safegraph_aggregated_..._by_county.csv`, in dict insertion order. -/
def preprocess_distancing_data (rows : List (String × Int × Int)) :
    List (String × Option ℚ) :=
  let county_fips_codes := extractCountyFips (rows.map Prod.fst)
  let deviceD := aggregate county_fips_codes (rows.map (fun r => r.2.1))
  let homeD := aggregate county_fips_codes (rows.map (fun r => r.2.2))
  deviceD.map (fun p => (p.1, npDivIntScalar ((dictGet? homeD p.1).getD 0) p.2))

/-- Zero-padded safegraph-side dict of `merge_census_and_distancing_data`
(lines 215-224): keys re-padded with `zfill 5` immediately after reload,
then a dict comprehension from `county_fips` to
`proportion_stayed_at_home`. -/
def safegraphSideDict (sg : List (String × ℚ)) : List (String × ℚ) :=
  buildDict (sg.map (fun p => (zfill 5 p.1, p.2)))

/-- Zero-padded census-side dict of `merge_census_and_distancing_data`
(lines 217-228): keys re-padded with `zfill 5`, then a dict comprehension
from `county_fips` to `prop_male`. -/
def censusSideDict (cs : List (String × ℚ)) : List (String × ℚ) :=
  buildDict (cs.map (fun p => (zfill 5 p.1, p.2)))

/-- The whole of `merge_census_and_distancing_data` (lines 195-247) on the
reloaded `(county_fips, value)` rows of the two per-county files: loop
over the census dict, look each key up in the safegraph dict, write
`(county_fips, proportion_male, proportion_stayed_at_home)` on success and
silently skip the row on KeyError. -/
def merge_census_and_distancing_data (sg cs : List (String × ℚ)) :
    List (String × ℚ × ℚ) :=
  (censusSideDict cs).filterMap
    (fun p => (dictGet? (safegraphSideDict sg) p.1).map (fun st => (p.1, p.2, st)))

/-- Column pair of the merged CSV handed to `spearmanr` by
`analyze_merged_data` (line 255): the full `proportion_male` and
`proportion_stayed_at_home` columns of every loaded row — no row is
filtered out before the call (a reloaded CSV cell may in general be empty
or NaN, hence `Option ℚ`). -/
def analyzeSampleCols (rows : List (String × Option ℚ × Option ℚ)) :
    List (Option ℚ) × List (Option ℚ) :=
  (rows.map (fun r => r.2.1), rows.map (fun r => r.2.2))

/-- Modelled from the spec for comparison with the code: the rows the spec
says form the correlation sample, namely "the subset of rows where both
named fields are present (non-missing)". -/
def claimedSampleRows (rows : List (String × Option ℚ × Option ℚ)) :
    List (String × Option ℚ × Option ℚ) :=
  rows.filter (fun r => r.2.1.isSome && r.2.2.isSome)

/-- Column pair of the spec's claimed sample, in the code's stable row
order. -/
def claimedSampleCols (rows : List (String × Option ℚ × Option ℚ)) :
    List (Option ℚ) × List (Option ℚ) :=
  analyzeSampleCols (claimedSampleRows rows)

/-- Reload of a row written by `merge_census_and_distancing_data`: both
numeric fields were written as finite numbers, so both cells are
present. -/
def mergedRowAsCsv (r : String × ℚ × ℚ) : String × Option ℚ × Option ℚ :=
  (r.1, some r.2.1, some r.2.2)

/-- Validity test of `preprocess_covid_deaths_data` (lines 294-295):
`not np.isnan(deaths) and deaths > 0`; a NaN cell is `none`. -/
def validDeaths : Option ℚ → Bool
  | none => false
  | some x => decide (0 < x)

/-- Ratio derivation of `preprocess_covid_deaths_data` (lines 297-300):
`male / (male + female)` when both counts are valid, else `np.nan`. -/
def propMaleDeaths (male_deaths female_deaths : Option ℚ) : Option ℚ :=
  if validDeaths male_deaths && validDeaths female_deaths then
    some ((male_deaths.getD 0) / (male_deaths.getD 0 + female_deaths.getD 0))
  else
    none

/-- Loop body of the first loop of `preprocess_covid_deaths_data`
(lines 269-276): a "Female, all ages" row updates the female dict, a
"Male, all ages" row the male dict, any other age group is ignored. -/
def deathDictStep
    (md_fd : List (String × Option ℚ) × List (String × Option ℚ))
    (r : String × String × Option ℚ) :
    List (String × Option ℚ) × List (String × Option ℚ) :=
  if r.2.1 = "Female, all ages" then
    (md_fd.1, dictInsert md_fd.2 r.1 r.2.2)
  else if r.2.1 = "Male, all ages" then
    (dictInsert md_fd.1 r.1 r.2.2, md_fd.2)
  else
    md_fd

/-- First loop of `preprocess_covid_deaths_data` (lines 266-276): build the
state-to-male-deaths and state-to-female-deaths dicts from the
`(State, Age group, COVID-19 Deaths)` rows. -/
def stateDeathDicts (rows : List (String × String × Option ℚ)) :
    List (String × Option ℚ) × List (String × Option ℚ) :=
  rows.foldl deathDictStep ([], [])

/-- Write loop of `preprocess_covid_deaths_data` (lines 289-303): iterate
the male dict in insertion order; `state_to_female_deaths[state]` has no
surrounding try, so a missing state raises KeyError, which aborts the loop
after the rows already written. Returns the rows written before the abort
and the uncaught exception, if any. -/
def writeDeathRows (femaleD : List (String × Option ℚ)) :
    List (String × Option ℚ) →
      List (String × Option ℚ × Option ℚ × Option ℚ) × Option String
  | [] => ([], none)
  | (state, male_deaths) :: rest =>
    match dictGet? femaleD state with
    | none => ([], some ("KeyError: " ++ state))
    | some female_deaths =>
      let out := writeDeathRows femaleD rest
      ((state, male_deaths, female_deaths, propMaleDeaths male_deaths female_deaths) :: out.1,
       out.2)

/-- The whole of `preprocess_covid_deaths_data` (lines 259-303) on its
parsed rows: the output rows actually written to
`covid_deaths_by_state_and_gender_preprocessed.csv` together with the
uncaught KeyError, if one aborted the run. -/
def preprocess_covid_deaths_data (rows : List (String × String × Option ℚ)) :
    List (String × Option ℚ × Option ℚ × Option ℚ) × Option String :=
  let dicts := stateDeathDicts rows
  writeDeathRows dicts.2 dicts.1

/-- A top-level function definition of the module, with the number of
statements in its suite (compound statements counted once; a bare string
literal is an expression statement, a comment is not a statement). -/
structure PyFunctionDef where
  name : String
  bodyStatements : Nat
  deriving DecidableEq

/-- Function definitions of `scripts/preprocess_data.py`, in order, with
their suite statement counts; `merge_covid_and_distancing_data`
(lines 334-337) contains only the comment `# Load both datasets.` and no
statement. -/
def preprocess_data_module : List PyFunctionDef :=
  [⟨"preprocess_census_data", 26⟩,
   ⟨"preprocess_distancing_data", 14⟩,
   ⟨"merge_census_and_distancing_data", 11⟩,
   ⟨"analyze_merged_data", 3⟩,
   ⟨"preprocess_covid_deaths_data", 8⟩,
   ⟨"aggregate_distancing_by_state", 14⟩,
   ⟨"merge_covid_and_distancing_data", 0⟩]

/-- Python's grammar requires every `def` suite to contain at least one
statement; a suite of only comments is a SyntaxError (IndentationError)
raised when the file is compiled, before any statement of the module
runs. -/
def moduleCompiles (m : List PyFunctionDef) : Bool :=
  m.all (fun f => 0 < f.bodyStatements)

/-- Invoking any function of a module: the module must compile before
anything in it can run; if compilation fails no call produces a result
(and in particular no output file is written). -/
def runModuleFunction (m : List PyFunctionDef) (_fname : String) : Option Unit :=
  if moduleCompiles m then some () else none

/-- Position of the first occurrence of a key in a key list (length of the
list when absent); a stating device for iteration-order properties. -/
def keyIdx : List String → String → Nat
  | [], _ => 0
  | a :: rest, k => if a = k then 0 else keyIdx rest k + 1

/-! Theorems: general lemmas first, then one named theorem per claim
(with its witness or counterexample where required). -/

theorem length_zfillChars (width : Nat) (l : List Char) (h : l.length ≤ width) :
    (zfillChars width l).length = width := by
  cases l with
  | nil => simp [zfillChars]
  | cons c rest =>
    simp only [List.length_cons] at h
    by_cases hsign : c = '+' ∨ c = '-'
    · simp only [zfillChars, if_pos hsign, List.length_cons, List.length_append,
        List.length_replicate]
      omega
    · simp only [zfillChars, if_neg hsign, List.length_append, List.length_replicate,
        List.length_cons]
      omega

theorem length_zfill (width : Nat) (s : String) (h : s.length ≤ width) :
    (zfill width s).length = width := by
  unfold zfill
  rcases Nat.lt_or_ge s.length width with hlt | hge
  · rw [if_neg (by omega)]
    show (zfillChars width s.data).length = width
    exact length_zfillChars width s.data h
  · rw [if_pos (by omega)]
    omega

theorem zfill_of_length_ge (width : Nat) (s : String) (h : width ≤ s.length) :
    zfill width s = s := by
  unfold zfill
  rw [if_pos h]

/-- On an all-digits string the sign branch of `zfill` is dead: the result
is plain left-padding with zeros. -/
theorem zfill_eq_pad_of_digits (width : Nat) (s : String)
    (hd : allDigits s = true) (h : s.length < width) :
    zfill width s = String.mk (List.replicate (width - s.length) '0' ++ s.data) := by
  unfold zfill
  rw [if_neg (by omega)]
  cases hs : s.data with
  | nil =>
    have h0 : s.length = 0 := by simp [String.length, hs]
    simp [zfillChars, hs, h0]
  | cons c rest =>
    have hc : c.isDigit = true := by
      simp only [allDigits, hs, List.all_cons, Bool.and_eq_true] at hd
      exact hd.1
    have hsign : ¬(c = '+' ∨ c = '-') := by
      rintro (rfl | rfl) <;> simp [Char.isDigit] at hc
    have hlen : s.length = rest.length + 1 := by
      simp [String.length, hs]
    simp only [zfillChars, if_neg hsign, hs, hlen]

/-- C8, part used by several claims: padding a width-≤-5 key yields width
exactly 5. -/
theorem length_zfill_five (s : String) (h : s.length ≤ 5) :
    (zfill 5 s).length = 5 :=
  length_zfill 5 s h

/-- C8 — For every valid numeric geographic identifier of width at most 5,
`zfill 5` (the pad normalization applied to both tables in
`merge_census_and_distancing_data`) returns the 5-character string equal to
the input left-padded with ASCII zeros, and it is idempotent: applying it to
the already-normalized 5-character result returns that result unchanged. -/
theorem pad_normalization_properties (s : String)
    (hd : allDigits s = true) (h : s.length ≤ 5) :
    zfill 5 s = String.mk (List.replicate (5 - s.length) '0' ++ s.data) ∧
    (zfill 5 s).length = 5 ∧
    zfill 5 (zfill 5 s) = zfill 5 s := by
  refine ⟨?_, length_zfill 5 s h, ?_⟩
  · rcases Nat.lt_or_ge s.length 5 with hlt | hge
    · exact zfill_eq_pad_of_digits 5 s hd hlt
    · have h5 : s.length = 5 := by omega
      rw [zfill_of_length_ge 5 s hge, h5]
      cases s
      simp
  · exact zfill_of_length_ge 5 (zfill 5 s) (by rw [length_zfill 5 s h])

/-- Witness for C8 at the concrete identifier "1001". -/
theorem pad_normalization_properties_witness :
    allDigits "1001" = true ∧ ("1001" : String).length ≤ 5 ∧
    (zfill 5 "1001" = String.mk (List.replicate (5 - ("1001" : String).length) '0' ++ ("1001" : String).data) ∧
     (zfill 5 "1001").length = 5 ∧
     zfill 5 (zfill 5 "1001") = zfill 5 "1001") :=
  ⟨by decide, by decide, pad_normalization_properties "1001" (by decide) (by decide)⟩

theorem dictKeys_map_overwrite {α : Type} (d : List (String × α)) (k : String) (v : α) :
    dictKeys (d.map (fun p => if p.1 = k then (k, v) else p)) = dictKeys d := by
  induction d with
  | nil => rfl
  | cons p rest ih =>
    by_cases h : p.1 = k
    · simp [dictKeys, h] at ih ⊢
      simpa [dictKeys] using ih
    · simp only [List.map_cons, if_neg h, dictKeys, List.map_map] at ih ⊢
      simp [ih]

theorem dictKeys_insert {α : Type} (d : List (String × α)) (k : String) (v : α) :
    dictKeys (dictInsert d k v) =
      if k ∈ dictKeys d then dictKeys d else dictKeys d ++ [k] := by
  unfold dictInsert
  by_cases h : k ∈ dictKeys d
  · rw [if_pos h, if_pos h, dictKeys_map_overwrite]
  · rw [if_neg h, if_neg h]
    simp [dictKeys]

theorem mem_dictKeys_insert {α : Type} (d : List (String × α)) (k a : String) (v : α) :
    a ∈ dictKeys (dictInsert d k v) ↔ a = k ∨ a ∈ dictKeys d := by
  rw [dictKeys_insert]
  by_cases h : k ∈ dictKeys d
  · rw [if_pos h]
    constructor
    · exact Or.inr
    · rintro (rfl | ha)
      · exact h
      · exact ha
  · rw [if_neg h]
    simp [or_comm]

theorem dictGet?_isSome_iff {α : Type} (d : List (String × α)) (k : String) :
    (dictGet? d k).isSome = true ↔ k ∈ dictKeys d := by
  induction d with
  | nil => simp [dictGet?, dictKeys]
  | cons p rest ih =>
    by_cases h : p.1 = k
    · simp [dictGet?, dictKeys, h]
    · simp [dictGet?, dictKeys, h, ih]
      intro hk
      exact absurd hk.symm h

theorem dictGet?_eq_none_iff {α : Type} (d : List (String × α)) (k : String) :
    dictGet? d k = none ↔ k ∉ dictKeys d := by
  rw [← dictGet?_isSome_iff]
  cases dictGet? d k <;> simp

theorem dictGet?_map_overwrite_ne {α : Type} (d : List (String × α)) (k a : String)
    (v : α) (hne : a ≠ k) :
    dictGet? (d.map (fun p => if p.1 = k then (k, v) else p)) a = dictGet? d a := by
  induction d with
  | nil => rfl
  | cons p rest ih =>
    by_cases hp : p.1 = k
    · have hpa : p.1 ≠ a := fun he => hne (he ▸ hp)
      have hka : ¬(k = a) := fun he => hne he.symm
      simp only [List.map_cons, if_pos hp, dictGet?, if_neg hka, if_neg hpa]
      exact ih
    · simp only [List.map_cons, if_neg hp, dictGet?]
      by_cases hpa : p.1 = a
      · rw [if_pos hpa, if_pos hpa]
      · rw [if_neg hpa, if_neg hpa]
        exact ih

theorem dictGet?_append_single_ne {α : Type} (d : List (String × α)) (k a : String)
    (v : α) (hne : a ≠ k) :
    dictGet? (d ++ [(k, v)]) a = dictGet? d a := by
  induction d with
  | nil => simp [dictGet?, if_neg (fun he : k = a => hne he.symm)]
  | cons p rest ih =>
    by_cases hpa : p.1 = a
    · simp [dictGet?, hpa]
    · simp only [List.cons_append, dictGet?, if_neg hpa]
      exact ih

theorem dictGet?_insert_self {α : Type} (d : List (String × α)) (k : String) (v : α) :
    dictGet? (dictInsert d k v) k = some v := by
  unfold dictInsert
  by_cases h : k ∈ dictKeys d
  · rw [if_pos h]
    induction d with
    | nil => simp [dictKeys] at h
    | cons p rest ih =>
      by_cases hp : p.1 = k
      · simp [dictGet?, hp]
      · simp only [dictKeys, List.map_cons, List.mem_cons] at h
        rcases h with h | h
        · exact absurd h.symm hp
        · simp only [List.map_cons, if_neg hp, dictGet?, if_neg hp]
          exact ih h
  · rw [if_neg h]
    induction d with
    | nil => simp [dictGet?]
    | cons p rest ih =>
      have hp : p.1 ≠ k := by
        intro hpk
        exact h (by simp [dictKeys, hpk])
      have hrest : k ∉ dictKeys rest := by
        intro hk
        exact h (by simp [dictKeys] at hk ⊢; exact Or.inr hk)
      simp only [List.cons_append, dictGet?, if_neg hp]
      exact ih hrest

theorem dictGet?_insert_ne {α : Type} (d : List (String × α)) (k a : String) (v : α)
    (hne : a ≠ k) : dictGet? (dictInsert d k v) a = dictGet? d a := by
  unfold dictInsert
  by_cases h : k ∈ dictKeys d
  · rw [if_pos h]
    exact dictGet?_map_overwrite_ne d k a v hne
  · rw [if_neg h]
    exact dictGet?_append_single_ne d k a v hne

theorem mem_dictKeys_foldl_insert {α : Type} (l : List (String × α))
    (d0 : List (String × α)) (a : String) :
    a ∈ dictKeys (l.foldl (fun d p => dictInsert d p.1 p.2) d0) ↔
      a ∈ dictKeys d0 ∨ a ∈ l.map Prod.fst := by
  induction l generalizing d0 with
  | nil => simp
  | cons p rest ih =>
    simp only [List.foldl_cons, List.map_cons, List.mem_cons]
    rw [ih, mem_dictKeys_insert]
    tauto

theorem mem_dictKeys_buildDict {α : Type} (l : List (String × α)) (a : String) :
    a ∈ dictKeys (buildDict l) ↔ a ∈ l.map Prod.fst := by
  unfold buildDict
  rw [mem_dictKeys_foldl_insert]
  simp [dictKeys]

theorem nodup_dictKeys_insert {α : Type} (d : List (String × α)) (k : String) (v : α)
    (h : (dictKeys d).Nodup) : (dictKeys (dictInsert d k v)).Nodup := by
  rw [dictKeys_insert]
  by_cases hm : k ∈ dictKeys d
  · rw [if_pos hm]
    exact h
  · rw [if_neg hm]
    simp [List.nodup_append, h, hm]

theorem nodup_dictKeys_foldl {α : Type} (l : List (String × α)) (d0 : List (String × α))
    (h : (dictKeys d0).Nodup) :
    (dictKeys (l.foldl (fun d p => dictInsert d p.1 p.2) d0)).Nodup := by
  induction l generalizing d0 with
  | nil => exact h
  | cons p rest ih => exact ih _ (nodup_dictKeys_insert _ _ _ h)

theorem nodup_dictKeys_buildDict {α : Type} (l : List (String × α)) :
    (dictKeys (buildDict l)).Nodup :=
  nodup_dictKeys_foldl l [] (by simp [dictKeys])

theorem dictGet?_eq_some_of_mem {α : Type} (d : List (String × α)) (k : String) (v : α)
    (hnd : (dictKeys d).Nodup) (hm : (k, v) ∈ d) : dictGet? d k = some v := by
  induction d with
  | nil => simp at hm
  | cons p rest ih =>
    simp only [List.mem_cons] at hm
    rcases hm with rfl | hm
    · simp [dictGet?]
    · have hk : k ∈ dictKeys rest := by
        simpa [dictKeys] using List.mem_map_of_mem Prod.fst hm
      have hnd' : p.1 ∉ dictKeys rest ∧ (dictKeys rest).Nodup := by
        simpa [dictKeys, List.nodup_cons] using hnd
      have hp : p.1 ≠ k := fun he => hnd'.1 (he ▸ hk)
      simp only [dictGet?, if_neg hp]
      exact ih hnd'.2 hm

theorem mem_of_dictGet?_eq_some {α : Type} (d : List (String × α)) (k : String) (v : α)
    (h : dictGet? d k = some v) : (k, v) ∈ d := by
  induction d with
  | nil => simp [dictGet?] at h
  | cons p rest ih =>
    obtain ⟨p1, p2⟩ := p
    by_cases hp : p1 = k
    · simp only [dictGet?, if_pos hp] at h
      injection h with h2
      simp [hp, h2]
    · simp only [dictGet?, if_neg hp] at h
      exact List.mem_cons_of_mem _ (ih h)

theorem mem_merge_iff (sg cs : List (String × ℚ)) (k : String) (m st : ℚ) :
    (k, m, st) ∈ merge_census_and_distancing_data sg cs ↔
      ((k, m) ∈ censusSideDict cs ∧
        dictGet? (safegraphSideDict sg) k = some st) := by
  unfold merge_census_and_distancing_data
  rw [List.mem_filterMap]
  constructor
  · rintro ⟨⟨p1, p2⟩, hp, hf⟩
    rcases ho : dictGet? (safegraphSideDict sg) p1 with _ | st'
    · rw [ho] at hf
      simp at hf
    · rw [ho] at hf
      simp only [Option.map_some', Option.some.injEq, Prod.mk.injEq] at hf
      obtain ⟨h1, h2, h3⟩ := hf
      subst h1
      subst h2
      subst h3
      exact ⟨hp, ho⟩
  · rintro ⟨hm, hg⟩
    exact ⟨(k, m), hm, by simp [hg]⟩

theorem mem_merge_keys_iff (sg cs : List (String × ℚ)) (k : String) :
    k ∈ (merge_census_and_distancing_data sg cs).map (fun r => r.1) ↔
      (k ∈ cs.map (fun p => zfill 5 p.1) ∧ k ∈ sg.map (fun p => zfill 5 p.1)) := by
  constructor
  · intro hk
    rcases List.mem_map.mp hk with ⟨⟨k', m, st⟩, hr, rfl⟩
    rcases (mem_merge_iff sg cs k' m st).mp hr with ⟨hmem, hget⟩
    constructor
    · have h1 : k' ∈ dictKeys (censusSideDict cs) := by
        simpa [dictKeys] using List.mem_map_of_mem Prod.fst hmem
      have h2 := (mem_dictKeys_buildDict _ _).mp h1
      simpa [List.map_map, Function.comp] using h2
    · have h1 : (dictGet? (safegraphSideDict sg) k').isSome = true := by
        rw [hget]
        rfl
      have h2 := (mem_dictKeys_buildDict _ _).mp ((dictGet?_isSome_iff _ _).mp h1)
      simpa [List.map_map, Function.comp] using h2
  · rintro ⟨hcs, hsg⟩
    have hkc : k ∈ dictKeys (censusSideDict cs) := by
      unfold censusSideDict
      rw [mem_dictKeys_buildDict]
      simpa [List.map_map, Function.comp] using hcs
    have hks : k ∈ dictKeys (safegraphSideDict sg) := by
      unfold safegraphSideDict
      rw [mem_dictKeys_buildDict]
      simpa [List.map_map, Function.comp] using hsg
    obtain ⟨m, hm⟩ : ∃ m, dictGet? (censusSideDict cs) k = some m := by
      rcases h : dictGet? (censusSideDict cs) k with _ | m
      · rw [dictGet?_eq_none_iff] at h
        exact absurd hkc h
      · exact ⟨m, rfl⟩
    obtain ⟨st, hst⟩ : ∃ st, dictGet? (safegraphSideDict sg) k = some st := by
      rcases h : dictGet? (safegraphSideDict sg) k with _ | st
      · rw [dictGet?_eq_none_iff] at h
        exact absurd hks h
      · exact ⟨st, rfl⟩
    exact List.mem_map.mpr
      ⟨(k, m, st),
       (mem_merge_iff sg cs k m st).mpr ⟨mem_of_dictGet?_eq_some _ _ _ hm, hst⟩, rfl⟩

/-- C2 — Under the code's inner-join behaviour, the merged table's key set
equals the intersection of the census and mobility key sets, both sides
re-padded to width 5 (`zfill 5`) immediately before comparison; and every
surviving row carries the census-side `prop_male` value together with the
mobility-side `proportion_stayed_at_home` value for its key. -/
theorem inner_join_key_set_and_fields (sg cs : List (String × ℚ)) :
    (∀ k, k ∈ (merge_census_and_distancing_data sg cs).map (fun r => r.1) ↔
      (k ∈ cs.map (fun p => zfill 5 p.1) ∧ k ∈ sg.map (fun p => zfill 5 p.1))) ∧
    (∀ k m st, (k, m, st) ∈ merge_census_and_distancing_data sg cs →
      dictGet? (censusSideDict cs) k = some m ∧
      dictGet? (safegraphSideDict sg) k = some st) := by
  refine ⟨fun k => mem_merge_keys_iff sg cs k, fun k m st hmem => ?_⟩
  rcases (mem_merge_iff sg cs k m st).mp hmem with ⟨hc, hs⟩
  exact ⟨dictGet?_eq_some_of_mem _ _ _ (nodup_dictKeys_buildDict _) hc, hs⟩

/-- Witness for C2: census table with keys "1001" and "01003", mobility
table with key "1001"; the padded intersection is exactly "01001", whose
merged row carries both sides' values. -/
theorem inner_join_key_set_and_fields_witness :
    ("01001" ∈ (merge_census_and_distancing_data [("1001", (3:ℚ)/10)]
        [("1001", (1:ℚ)/2), ("01003", (1:ℚ)/4)]).map (fun r => r.1)) ∧
    dictGet? (censusSideDict [("1001", (1:ℚ)/2), ("01003", (1:ℚ)/4)]) "01001" =
      some ((1:ℚ)/2) ∧
    dictGet? (safegraphSideDict [("1001", (3:ℚ)/10)]) "01001" = some ((3:ℚ)/10) := by
  have h := inner_join_key_set_and_fields [("1001", (3:ℚ)/10)]
    [("1001", (1:ℚ)/2), ("01003", (1:ℚ)/4)]
  have hmem : ("01001", (1:ℚ)/2, (3:ℚ)/10) ∈
      merge_census_and_distancing_data [("1001", (3:ℚ)/10)]
        [("1001", (1:ℚ)/2), ("01003", (1:ℚ)/4)] :=
    List.mem_singleton.mpr rfl
  have hf := h.2 "01001" ((1:ℚ)/2) ((3:ℚ)/10) hmem
  exact ⟨(h.1 "01001").mpr ⟨by decide, by decide⟩, hf.1, hf.2⟩

/-- C7 counterexample — the census table holds key "01003", the mobility
table is empty; the merged output is empty, so its key set is not the
census key set and no row with a missing-sentinel mobility field is
emitted. -/
theorem left_join_policy_counterexample :
    "01003" ∈ dictKeys (censusSideDict [("01003", (1:ℚ)/2)]) ∧
    merge_census_and_distancing_data [] [("01003", (1:ℚ)/2)] = [] :=
  ⟨by decide, rfl⟩

/-- C7 amended — the code's only merge behaviour is the inner join: a
census key absent from the (padded) mobility table is silently dropped
from the merged output (the KeyError is caught and passed), never emitted
with a missing-sentinel field. -/
theorem merge_drops_census_only_keys (sg cs : List (String × ℚ)) (k : String)
    (hk : k ∉ sg.map (fun p => zfill 5 p.1)) :
    k ∉ (merge_census_and_distancing_data sg cs).map (fun r => r.1) := by
  intro hmem
  exact hk ((mem_merge_keys_iff sg cs k).mp hmem).2

/-- Witness for the amended C7 at the counterexample's tables. -/
theorem merge_drops_census_only_keys_witness :
    "01003" ∉ (merge_census_and_distancing_data [] [("01003", (1:ℚ)/2)]).map
      (fun r => r.1) :=
  merge_drops_census_only_keys [] [("01003", (1:ℚ)/2)] "01003" (by simp)

/-- C5 counterexample — the census aggregation output applies no padding:
a row with state code "1" and county code "1" is written with key "11",
which is not 5 characters wide. -/
theorem census_output_key_width_counterexample :
    preprocess_census_data [["", "1", "1", "", "", "", "", "", "1", "1"]] =
      Except.ok [("11", (1:ℚ)/2)] ∧ ("11" : String).length ≠ 5 :=
  ⟨by rfl, by decide⟩

/-- C5 amended — only the merged output re-pads keys: every key it writes
has width exactly 5 provided the reloaded per-county keys have width at
most 5; the census and mobility aggregation outputs write their keys
unpadded (raw concatenation, or truncated block prefix). -/
theorem merged_output_keys_width_five (sg cs : List (String × ℚ))
    (_hsg : ∀ p ∈ sg, p.1.length ≤ 5) (hcs : ∀ p ∈ cs, p.1.length ≤ 5) :
    ∀ k ∈ (merge_census_and_distancing_data sg cs).map (fun r => r.1),
      k.length = 5 := by
  intro k hk
  rcases (mem_merge_keys_iff sg cs k).mp hk with ⟨hc, _⟩
  rcases List.mem_map.mp hc with ⟨p, hp, rfl⟩
  exact length_zfill_five p.1 (hcs p hp)

/-- Witness for the amended C5: the key "01001" written by the merge of
two width-4 tables has width 5. -/
theorem merged_output_keys_width_five_witness :
    ("01001" : String).length = 5 :=
  merged_output_keys_width_five [("1001", (3:ℚ)/10)] [("1001", (1:ℚ)/2)]
    (by decide) (by decide) "01001" (by decide)

/-- C3 — Block identifiers longer than 5 characters are truncated to
their first 5 characters (`str(x)[:5]`), and the claim's end-to-end
scenario: two rows with block code "010010001001" and device counts
100/50, completely-home counts 20/10, aggregate to device_count 150,
completely_home 30 and proportion_stayed_at_home 30/150 = 0.2. -/
theorem block_truncation_and_aggregation :
    (∀ b : String, 5 < b.length →
      (strTake 5 b).length = 5 ∧ strTake 5 b ++ strDrop 5 b = b) ∧
    extractCountyFips ["010010001001", "010010001001"] = ["01001", "01001"] ∧
    aggregate ["01001", "01001"] [100, 50] = [("01001", 150)] ∧
    aggregate ["01001", "01001"] [20, 10] = [("01001", 30)] ∧
    preprocess_distancing_data
        [("010010001001", 100, 20), ("010010001001", 50, 10)] =
      [("01001", some ((30:ℚ)/150))] ∧
    (30:ℚ)/150 = 0.2 := by
  refine ⟨fun b hb => ⟨?_, ?_⟩, by rfl, by rfl, by rfl, by rfl, by norm_num⟩
  · simp only [strTake, String.length, String.mk] at hb ⊢
    rw [List.length_take]
    omega
  · cases b with
    | mk l =>
      show String.mk (l.take 5 ++ l.drop 5) = String.mk l
      rw [List.take_append_drop]

/-- Witness for C3 at the 12-digit block code of the scenario. -/
theorem block_truncation_and_aggregation_witness :
    5 < ("010010001001" : String).length ∧
    (strTake 5 "010010001001").length = 5 ∧
    strTake 5 "010010001001" ++ strDrop 5 "010010001001" = "010010001001" :=
  ⟨by decide,
   (block_truncation_and_aggregation.1 "010010001001" (by decide)).1,
   (block_truncation_and_aggregation.1 "010010001001" (by decide)).2⟩

/-- C1 counterexample — a census input with a single county whose male and
female sums are both 0: `preprocess_census_data` raises ZeroDivisionError
instead of producing the missing sentinel. -/
theorem census_zero_denominator_raises :
    preprocess_census_data [["", "01", "001", "", "", "", "", "", "0", "0"]] =
      Except.error "ZeroDivisionError: division by zero" := by
  rfl

/-- C1 amended — the stated ratio policy holds only in the COVID-deaths
derivation: a NaN operand or a non-positive (in particular zero) sum of
operands yields the NaN sentinel without raising, while valid operands
yield the exact ratio; the census `proportion_male` derivation instead
raises ZeroDivisionError on a zero denominator. -/
theorem covid_ratio_missing_policy (male_deaths female_deaths : Option ℚ) :
    (male_deaths = none → propMaleDeaths male_deaths female_deaths = none) ∧
    (female_deaths = none → propMaleDeaths male_deaths female_deaths = none) ∧
    (male_deaths.getD 0 + female_deaths.getD 0 ≤ 0 →
      propMaleDeaths male_deaths female_deaths = none) ∧
    (validDeaths male_deaths = true → validDeaths female_deaths = true →
      propMaleDeaths male_deaths female_deaths =
        some (male_deaths.getD 0 / (male_deaths.getD 0 + female_deaths.getD 0))) := by
  refine ⟨?_, ?_, ?_, ?_⟩
  · rintro rfl
    simp [propMaleDeaths, validDeaths]
  · rintro rfl
    simp [propMaleDeaths, validDeaths]
  · intro hle
    have hcond : (validDeaths male_deaths && validDeaths female_deaths) = false := by
      by_contra hb
      rw [Bool.not_eq_false, Bool.and_eq_true] at hb
      obtain ⟨hm, hf⟩ := hb
      have h1 : 0 < male_deaths.getD 0 := by
        cases male_deaths with
        | none => simp [validDeaths] at hm
        | some x => simpa [validDeaths] using hm
      have h2 : 0 < female_deaths.getD 0 := by
        cases female_deaths with
        | none => simp [validDeaths] at hf
        | some x => simpa [validDeaths] using hf
      linarith
    simp [propMaleDeaths, hcond]
  · intro hm hf
    simp [propMaleDeaths, hm, hf]

/-- Witness for the amended C1: NaN male count, both counts zero, and the
valid pair 3/7 (spec property: ratio 3/10). -/
theorem covid_ratio_missing_policy_witness :
    propMaleDeaths none (some 7) = none ∧
    propMaleDeaths (some 0) (some 0) = none ∧
    propMaleDeaths (some 3) (some 7) = some ((3:ℚ) / (3 + 7)) :=
  ⟨(covid_ratio_missing_policy none (some 7)).1 rfl,
   (covid_ratio_missing_policy (some 0) (some 0)).2.2.1 (by simp),
   (covid_ratio_missing_policy (some 3) (some 7)).2.2.2 (by norm_num [validDeaths])
     (by norm_num [validDeaths])⟩

/-- C4 counterexample — on a merged table holding one row with a missing
proportion_male cell, the columns the code hands to spearmanr still
contain that row, while the claim's sample excludes it: the code performs
no missing-value exclusion. -/
theorem correlation_sample_counterexample :
    analyzeSampleCols [("00000", none, some ((1:ℚ)/2))] ≠
      claimedSampleCols [("00000", none, some ((1:ℚ)/2))] ∧
    (analyzeSampleCols [("00000", none, some ((1:ℚ)/2))]).1.length = 1 ∧
    (claimedSampleCols [("00000", none, some ((1:ℚ)/2))]).1.length = 0 :=
  ⟨by decide, rfl, rfl⟩

/-- C4 amended — `analyze_merged_data` feeds every loaded row to spearmanr
with no filtering; this coincides with the claimed non-missing subset
exactly because a table written by `merge_census_and_distancing_data`
never contains a missing field. -/
theorem correlation_sample_on_merged_tables (sg cs : List (String × ℚ)) :
    claimedSampleRows ((merge_census_and_distancing_data sg cs).map mergedRowAsCsv) =
      (merge_census_and_distancing_data sg cs).map mergedRowAsCsv ∧
    analyzeSampleCols ((merge_census_and_distancing_data sg cs).map mergedRowAsCsv) =
      claimedSampleCols ((merge_census_and_distancing_data sg cs).map mergedRowAsCsv) := by
  have h : claimedSampleRows
      ((merge_census_and_distancing_data sg cs).map mergedRowAsCsv) =
      (merge_census_and_distancing_data sg cs).map mergedRowAsCsv := by
    unfold claimedSampleRows
    apply List.filter_eq_self.mpr
    intro a ha
    rcases List.mem_map.mp ha with ⟨r, _, rfl⟩
    simp [mergedRowAsCsv]
  refine ⟨h, ?_⟩
  unfold claimedSampleCols
  rw [h]

/-- C9 — `merge_covid_and_distancing_data` (lines 334-337) has a
statement-free suite, a Python syntax error, so the module fails to
compile: no invocation of any pipeline function in this file can run, and
no output is ever produced. -/
theorem module_syntax_error_never_runs :
    moduleCompiles preprocess_data_module = false ∧
    ∀ fname : String, runModuleFunction preprocess_data_module fname = none :=
  ⟨rfl, fun _ => rfl⟩

theorem parseCensusRows_append (l1 l2 : List (List String)) :
    (parseCensusRows (l1 ++ l2)).states =
      (parseCensusRows l1).states ++ (parseCensusRows l2).states ∧
    (parseCensusRows (l1 ++ l2)).counties =
      (parseCensusRows l1).counties ++ (parseCensusRows l2).counties ∧
    (parseCensusRows (l1 ++ l2)).males =
      (parseCensusRows l1).males ++ (parseCensusRows l2).males ∧
    (parseCensusRows (l1 ++ l2)).females =
      (parseCensusRows l1).females ++ (parseCensusRows l2).females ∧
    (parseCensusRows (l1 ++ l2)).printed =
      (parseCensusRows l1).printed ++ (parseCensusRows l2).printed := by
  induction l1 with
  | nil => simp [parseCensusRows]
  | cons row rest ih =>
    obtain ⟨h1, h2, h3, h4, h5⟩ := ih
    cases hrow : extractCensusRow row with
    | ok v =>
      obtain ⟨st, ct, m, f⟩ := v
      simp [parseCensusRows, hrow, h1, h2, h3, h4, h5]
    | error e =>
      simp [parseCensusRows, hrow, h1, h2, h3, h4, h5]

/-- C6 — A census row whose extraction fails (in particular a failed
numeric parse of the male or female count) is skipped without terminating
the read loop: the accumulated per-row arrays are exactly those of the
input with the bad row removed, the printed data-quality log grows by
exactly one entry (so its length is a running skip count), and when no
later row fails the last log entry is the bad row's error — nothing is
raised further. -/
theorem malformed_census_row_skipped (pre post : List (List String))
    (bad : List String) (e : String)
    (hbad : extractCensusRow bad = Except.error e) :
    (parseCensusRows (pre ++ bad :: post)).states =
      (parseCensusRows (pre ++ post)).states ∧
    (parseCensusRows (pre ++ bad :: post)).counties =
      (parseCensusRows (pre ++ post)).counties ∧
    (parseCensusRows (pre ++ bad :: post)).males =
      (parseCensusRows (pre ++ post)).males ∧
    (parseCensusRows (pre ++ bad :: post)).females =
      (parseCensusRows (pre ++ post)).females ∧
    (parseCensusRows (pre ++ bad :: post)).printed.length =
      (parseCensusRows (pre ++ post)).printed.length + 1 ∧
    ((parseCensusRows post).printed = [] →
      (parseCensusRows (pre ++ bad :: post)).printed.getLast? = some e) := by
  obtain ⟨a1, a2, a3, a4, a5⟩ := parseCensusRows_append pre (bad :: post)
  obtain ⟨b1, b2, b3, b4, b5⟩ := parseCensusRows_append pre post
  have c1 : (parseCensusRows (bad :: post)).states = (parseCensusRows post).states := by
    simp [parseCensusRows, hbad]
  have c2 : (parseCensusRows (bad :: post)).counties = (parseCensusRows post).counties := by
    simp [parseCensusRows, hbad]
  have c3 : (parseCensusRows (bad :: post)).males = (parseCensusRows post).males := by
    simp [parseCensusRows, hbad]
  have c4 : (parseCensusRows (bad :: post)).females = (parseCensusRows post).females := by
    simp [parseCensusRows, hbad]
  have c5 : (parseCensusRows (bad :: post)).printed =
      e :: (parseCensusRows post).printed := by
    simp [parseCensusRows, hbad]
  refine ⟨?_, ?_, ?_, ?_, ?_, ?_⟩
  · rw [a1, b1, c1]
  · rw [a2, b2, c2]
  · rw [a3, b3, c3]
  · rw [a4, b4, c4]
  · rw [a5, b5, c5]
    simp
    omega
  · intro hpost
    rw [a5, c5, hpost]
    exact List.getLast?_append_cons _ e []

/-- Witness for C6: one good row, then a row whose male count "abc" fails
`int()`; the good row is still aggregated, the log holds exactly that
error. -/
theorem malformed_census_row_skipped_witness :
    extractCensusRow ["", "01", "002", "", "", "", "", "", "abc", "5"] =
      Except.error "ValueError: invalid literal for int() with base 10: abc" ∧
    (parseCensusRows
        [["", "01", "001", "", "", "", "", "", "10", "5"],
         ["", "01", "002", "", "", "", "", "", "abc", "5"]]).states =
      (parseCensusRows [["", "01", "001", "", "", "", "", "", "10", "5"]]).states ∧
    (parseCensusRows
        [["", "01", "001", "", "", "", "", "", "10", "5"],
         ["", "01", "002", "", "", "", "", "", "abc", "5"]]).printed.getLast? =
      some "ValueError: invalid literal for int() with base 10: abc" := by
  have h := malformed_census_row_skipped
    [["", "01", "001", "", "", "", "", "", "10", "5"]] []
    ["", "01", "002", "", "", "", "", "", "abc", "5"]
    "ValueError: invalid literal for int() with base 10: abc" (by rfl)
  exact ⟨by rfl, h.1, h.2.2.2.2.2 (by rfl)⟩

theorem writeDeathRows_abort (fD : List (String × Option ℚ))
    (l : List (String × Option ℚ)) (s : String)
    (hs : s ∈ l.map Prod.fst) (hmiss : dictGet? fD s = none) :
    ((writeDeathRows fD l).2).isSome = true ∧
    ∀ k ∈ (writeDeathRows fD l).1.map (fun r => r.1),
      keyIdx (l.map Prod.fst) k < keyIdx (l.map Prod.fst) s := by
  induction l with
  | nil => simp at hs
  | cons p rest ih =>
    obtain ⟨a, m⟩ := p
    cases h : dictGet? fD a with
    | none =>
      constructor
      · simp [writeDeathRows, h]
      · intro k hk
        simp [writeDeathRows, h] at hk
    | some f =>
      have has : a ≠ s := by
        intro he
        rw [he, hmiss] at h
        cases h
      have hs' : s ∈ rest.map Prod.fst := by
        simp only [List.map_cons] at hs
        rcases List.mem_cons.mp hs with he | hmem
        · exact absurd he.symm has
        · exact hmem
      obtain ⟨e1, e2⟩ := ih hs'
      have hidx : keyIdx ((a, m) :: rest |>.map Prod.fst) s =
          keyIdx (rest.map Prod.fst) s + 1 := by
        simp [keyIdx, has]
      constructor
      · simpa [writeDeathRows, h] using e1
      · intro k hk
        simp only [writeDeathRows, h, List.map_cons, List.mem_cons] at hk
        rw [hidx]
        rcases hk with rfl | hk
        · simp [keyIdx]
        · have hlt := e2 k hk
          by_cases hak : a = k
          · simp [List.map_cons, keyIdx, hak]
          · simp only [List.map_cons, keyIdx, if_neg hak]
            omega

theorem deathDictStep_female (md fd : List (String × Option ℚ)) (r1 : String)
    (r2 : String) (r3 : Option ℚ) (h1 : r2 = "Female, all ages") :
    deathDictStep (md, fd) (r1, r2, r3) = (md, dictInsert fd r1 r3) := by
  simp [deathDictStep, h1]

theorem deathDictStep_male (md fd : List (String × Option ℚ)) (r1 : String)
    (r2 : String) (r3 : Option ℚ) (_h1 : r2 ≠ "Female, all ages")
    (h2 : r2 = "Male, all ages") :
    deathDictStep (md, fd) (r1, r2, r3) = (dictInsert md r1 r3, fd) := by
  simp [deathDictStep, _h1, h2]

theorem deathDictStep_other (md fd : List (String × Option ℚ)) (r1 : String)
    (r2 : String) (r3 : Option ℚ) (h1 : r2 ≠ "Female, all ages")
    (h2 : r2 ≠ "Male, all ages") :
    deathDictStep (md, fd) (r1, r2, r3) = (md, fd) := by
  simp [deathDictStep, h1, h2]

theorem mem_male_dict_foldl (rows : List (String × String × Option ℚ)) (s : String)
    (md fd : List (String × Option ℚ))
    (h : s ∈ dictKeys md ∨ ∃ d, (s, "Male, all ages", d) ∈ rows) :
    s ∈ dictKeys (rows.foldl deathDictStep (md, fd)).1 := by
  induction rows generalizing md fd with
  | nil =>
    rcases h with h | ⟨d, hd⟩
    · exact h
    · simp at hd
  | cons r rest ih =>
    obtain ⟨r1, r2, r3⟩ := r
    simp only [List.foldl_cons]
    have hnext : s ∈ dictKeys md ∨ (s = r1 ∧ r2 = "Male, all ages") ∨
        ∃ d, (s, "Male, all ages", d) ∈ rest := by
      rcases h with h | ⟨d, hd⟩
      · exact Or.inl h
      · rcases List.mem_cons.mp hd with heq | hmem
        · have e1 : s = r1 := congrArg (fun x => x.1) heq
          have e2 : ("Male, all ages" : String) = r2 := congrArg (fun x => x.2.1) heq
          exact Or.inr (Or.inl ⟨e1, e2.symm⟩)
        · exact Or.inr (Or.inr ⟨d, hmem⟩)
    by_cases h1 : r2 = "Female, all ages"
    · rw [deathDictStep_female md fd r1 r2 r3 h1]
      apply ih
      rcases hnext with h | ⟨_, e2⟩ | hrest
      · exact Or.inl h
      · rw [h1] at e2
        exact absurd e2 (by decide)
      · exact Or.inr hrest
    · by_cases h2 : r2 = "Male, all ages"
      · rw [deathDictStep_male md fd r1 r2 r3 h1 h2]
        apply ih
        rcases hnext with h | ⟨e1, _⟩ | hrest
        · exact Or.inl ((mem_dictKeys_insert md r1 s r3).mpr (Or.inr h))
        · exact Or.inl ((mem_dictKeys_insert md r1 s r3).mpr (Or.inl e1))
        · exact Or.inr hrest
      · rw [deathDictStep_other md fd r1 r2 r3 h1 h2]
        apply ih
        rcases hnext with h | ⟨_, e2⟩ | hrest
        · exact Or.inl h
        · exact absurd e2 h2
        · exact Or.inr hrest

theorem not_mem_female_dict_foldl (rows : List (String × String × Option ℚ))
    (s : String) (md fd : List (String × Option ℚ))
    (hrows : ∀ d, (s, "Female, all ages", d) ∉ rows) (hfd : s ∉ dictKeys fd) :
    s ∉ dictKeys (rows.foldl deathDictStep (md, fd)).2 := by
  induction rows generalizing md fd with
  | nil => exact hfd
  | cons r rest ih =>
    obtain ⟨r1, r2, r3⟩ := r
    simp only [List.foldl_cons]
    have hrest : ∀ d, (s, "Female, all ages", d) ∉ rest := by
      intro d hd
      exact hrows d (List.mem_cons_of_mem _ hd)
    by_cases h1 : r2 = "Female, all ages"
    · rw [deathDictStep_female md fd r1 r2 r3 h1]
      apply ih _ _ hrest
      intro hmem
      rcases (mem_dictKeys_insert fd r1 s r3).mp hmem with heq | hmem'
      · apply hrows r3
        rw [heq, ← h1]
        exact List.mem_cons_self _ _
      · exact hfd hmem'
    · by_cases h2 : r2 = "Male, all ages"
      · rw [deathDictStep_male md fd r1 r2 r3 h1 h2]
        exact ih _ _ hrest hfd
      · rw [deathDictStep_other md fd r1 r2 r3 h1 h2]
        exact ih _ _ hrest hfd

/-- C10 — For every COVID-deaths input containing a state with a
"Male, all ages" row but no "Female, all ages" row, the female-deaths
lookup raises an unhandled KeyError that aborts the run mid-write: the
state's own row is not written (the row is not skipped), and no state
later in the male dict's iteration order is written either. -/
theorem covid_missing_female_aborts (rows : List (String × String × Option ℚ))
    (s : String)
    (hmale : ∃ d, (s, "Male, all ages", d) ∈ rows)
    (hfem : ∀ d, (s, "Female, all ages", d) ∉ rows) :
    ((preprocess_covid_deaths_data rows).2).isSome = true ∧
    s ∉ (preprocess_covid_deaths_data rows).1.map (fun r => r.1) ∧
    ∀ t, keyIdx (dictKeys (stateDeathDicts rows).1) s <
        keyIdx (dictKeys (stateDeathDicts rows).1) t →
      t ∉ (preprocess_covid_deaths_data rows).1.map (fun r => r.1) := by
  have hm : s ∈ dictKeys (stateDeathDicts rows).1 :=
    mem_male_dict_foldl rows s [] [] (Or.inr hmale)
  have hf : dictGet? (stateDeathDicts rows).2 s = none := by
    rw [dictGet?_eq_none_iff]
    exact not_mem_female_dict_foldl rows s [] [] hfem (by simp [dictKeys])
  have habort := writeDeathRows_abort (stateDeathDicts rows).2
    (stateDeathDicts rows).1 s hm hf
  refine ⟨habort.1, ?_, ?_⟩
  · intro hmem
    have h1 : keyIdx (dictKeys (stateDeathDicts rows).1) s <
        keyIdx (dictKeys (stateDeathDicts rows).1) s := habort.2 s hmem
    omega
  · intro t ht hmem
    have h2 : keyIdx (dictKeys (stateDeathDicts rows).1) t <
        keyIdx (dictKeys (stateDeathDicts rows).1) s := habort.2 t hmem
    omega

/-- Witness for C10: a single "AL" male row and no female row; the run
aborts with a KeyError and writes nothing. -/
theorem covid_missing_female_aborts_witness :
    ((preprocess_covid_deaths_data [("AL", "Male, all ages", some 10)]).2).isSome = true ∧
    "AL" ∉ (preprocess_covid_deaths_data
      [("AL", "Male, all ages", some 10)]).1.map (fun r => r.1) := by
  have h := covid_missing_female_aborts [("AL", "Male, all ages", some 10)] "AL"
    ⟨some 10, List.mem_singleton.mpr rfl⟩
    (fun d hd => by
      have heq := List.mem_singleton.mp hd
      have hbad : ("Female, all ages" : String) = "Male, all ages" :=
        congrArg (fun x => x.2.1) heq
      exact absurd hbad (by decide))
  exact ⟨h.1, h.2.1⟩

end PreprocessData
